import Mathlib

/-
  Verification of the gradient-derivation core of the gradient-visualizer
  repository.

  The core function `createGradientWithOklch` (src/utils/createGradient.ts)
  derives a fixed 13-step palette from a main color and an options record by
  interpolating in the OKLCH perceptual color space.  The perceptual-color
  primitives it delegates to (the `culori` library: parse/convert, gamut
  clamping, keyframe interpolation, equidistant sampling, hex formatting) are
  external collaborators that are not part of the repository; they are
  modelled here from the specification's interface contracts (spec §6), with
  exact rational arithmetic in place of floating point.
-/

namespace GradientViz

attribute [local semireducible] Rat.mul Rat.add Rat.inv Rat.sub

/-- A color in perceptual (OKLCH) form: lightness `l`, chroma `c`, and hue
`h` (which is `none` when the color is achromatic / the hue is undefined). -/
structure OklchPoint where
  l : ℚ
  c : ℚ
  h : Option ℚ
deriving DecidableEq, Repr

/-- Linear interpolation of a single numeric channel. -/
def lerp (a b t : ℚ) : ℚ := a + (b - a) * t

/-- Shortest-arc hue difference: the representative of `b - a` modulo 360
that lies in [-180, 180). -/
def hueDelta (a b : ℚ) : ℚ :=
  let d := b - a
  d - 360 * ((Rat.floor (d / 360 + 1 / 2) : ℤ) : ℚ)

/-- Modelled from the spec: hue interpolation along the shorter angular
direction when both endpoints are chromatic, degrading gracefully (taking the
defined hue) when one side has an undefined hue. -/
def lerpHue : Option ℚ → Option ℚ → ℚ → Option ℚ
  | none, none, _ => none
  | some a, none, _ => some a
  | none, some b, _ => some b
  | some a, some b, t => some (a + hueDelta a b * t)

/-- Channelwise linear interpolation of two perceptual colors. -/
def lerpPoint (a b : OklchPoint) (t : ℚ) : OklchPoint :=
  { l := lerp a.l b.l t, c := lerp a.c b.c t, h := lerpHue a.h b.h t }

/-- Modelled from the spec: the displayable gamut of the perceptual space,
as a convex region in the (lightness, chroma) plane: lightness in [0, 1] and
chroma between 0 and `min l (1 - l)`.  Hue does not restrict the gamut. -/
def inGamut (p : OklchPoint) : Bool :=
  decide (0 ≤ p.l) && decide (p.l ≤ 1) && decide (0 ≤ p.c) &&
    decide (p.c ≤ p.l) && decide (p.c ≤ 1 - p.l)

/-- Modelled from the spec: `clampToGamut` maps a perceptual color to the
nearest in-gamut equivalent, preserving hue: lightness is clamped into
[0, 1] and chroma into the gamut's chroma range at that lightness. -/
def clampGamut (p : OklchPoint) : OklchPoint :=
  let lc := max 0 (min 1 p.l)
  { l := lc, c := max 0 (min (min lc (1 - lc)) p.c), h := p.h }

/-- Modelled from the spec: `toPerceptualSpace` parses/converts a displayable
color string into the perceptual triple and fails on unparseable input.  A
representative table of recognized color strings stands in for the full
parser; `#00ff00` parses to a deliberately out-of-gamut raw triple. -/
def parseColor (s : String) : Option OklchPoint :=
  if s = "#3b82f6" then some { l := 62 / 100, c := 19 / 100, h := some 259 }
  else if s = "#ff0000" then some { l := 627 / 1000, c := 25 / 100, h := some 29 }
  else if s = "#00ff00" then some { l := 866 / 1000, c := 295 / 1000, h := some 142 }
  else if s = "#ffffff" then some { l := 1, c := 0, h := none }
  else if s = "#000000" then some { l := 0, c := 0, h := none }
  else none

/-- Modelled from the spec: the culori gamut-clamping function applied to a
color *string* parses it first and returns `undefined` (here `none`) when the
string is unparseable; composing with `converter (oklch)` is the identity on
an already-OKLCH color. -/
def culoriClampStr (s : String) : Option OklchPoint :=
  (parseColor s).map clampGamut

/-- Modelled from the spec: the culori gamut-clamping function applied to a
structurally valid perceptual color always succeeds (spec §6), so it returns
`some` of the clamp. -/
def culoriClampColor (p : OklchPoint) : Option OklchPoint :=
  some (clampGamut p)

/-- Decimal-free rendering of a rational as text, used by the modelled hex
formatter. -/
def qstr (q : ℚ) : String :=
  toString q.num ++ "/" ++ toString q.den

/-- Hue projection factor used by the modelled formatter: the cartesian
contribution of the hue is weighted by chroma, so an achromatic color's
rendering is independent of its hue, as in a cylindrical-to-RGB conversion. -/
def hval : Option ℚ → ℚ
  | none => 0
  | some h => h

/-- Rendering of an in-gamut perceptual color as a display string. -/
def hexEncode (p : OklchPoint) : String :=
  "#" ++ qstr p.l ++ "," ++ qstr (p.c * hval p.h)

/-- Modelled from the spec: `toDisplayable` returns a display string, or
`undefined` (here `none`) when the color cannot be represented, i.e. is out
of gamut. -/
def formatHex (p : OklchPoint) : Option String :=
  if inGamut p then some (hexEncode p) else none

/-- Modelled from the spec: `samples n` returns `n` equidistant positions in
[0, 1], evenly spaced and including both endpoints. -/
def samples (n : ℕ) : List ℚ :=
  (List.range n).map (fun i : ℕ => (i : ℚ) / ((n : ℚ) - 1))

/-- Modelled from the spec: piecewise interpolation through the three
keyframes (dark, position 0) → (main, position `stop`) → (light, position 1),
per channel, evaluated at parameter `t`. -/
def interpolate3 (dark main : OklchPoint) (stop : ℚ) (light : OklchPoint) (t : ℚ) : OklchPoint :=
  if t ≤ stop then lerpPoint dark main (t / stop)
  else lerpPoint main light ((t - stop) / (1 - stop))

/-- The default failure message of `assertIsDefined` (src/utils/assert.ts),
with the received value interpolated. -/
def assertFailureMessage : String :=
  "Expected val to be defined, but received undefined"

/-- Translation of `assertIsDefined` (src/utils/assert.ts): throws a
`TypeError` when the value is `undefined` or `null`, otherwise narrows it. -/
def assertIsDefined {α : Type} (val : Option α) : Except String α :=
  match val with
  | none => Except.error assertFailureMessage
  | some x => Except.ok x

/-- The fixed darkest-first sequence of sampled luminance labels
(createGradient.ts, `LUMINANCE`). -/
def LUMINANCE : List ℕ := [950, 900, 800, 700, 600, 500, 400, 300, 200, 100, 50]

/-- Pure black boundary color (createGradient.ts, `BLACK`). -/
def BLACK : String := "#000000"

/-- Pure white boundary color (createGradient.ts, `WHITE`). -/
def WHITE : String := "#FFFFFF"

/-- The caller-facing options record: five optional numeric knobs
(createGradient.ts, `GradientOptions`). -/
structure GradientOptions where
  minL : Option ℚ := none
  maxL : Option ℚ := none
  darkChroma : Option ℚ := none
  lightChroma : Option ℚ := none
  mainColorStop : Option ℚ := none
deriving DecidableEq, Repr

/-- The options record after merging with defaults: every field present. -/
structure ResolvedOptions where
  minL : ℚ
  maxL : ℚ
  darkChroma : ℚ
  lightChroma : ℚ
  mainColorStop : ℚ
deriving DecidableEq, Repr

/-- The documented default option values (createGradient.ts,
`DEFAULT_OPTIONS`). -/
def DEFAULT_OPTIONS : ResolvedOptions :=
  { minL := 2 / 10, maxL := 98 / 100, darkChroma := 1 / 1000,
    lightChroma := 1 / 100, mainColorStop := 1 / 2 }

/-- Translation of the option merge `{ ...DEFAULT_OPTIONS, ...options }`: an
absent record gives the defaults, and each caller-supplied field fully
overrides the corresponding default. -/
def resolveOptions : Option GradientOptions → ResolvedOptions
  | none => DEFAULT_OPTIONS
  | some g =>
    { minL := g.minL.getD DEFAULT_OPTIONS.minL,
      maxL := g.maxL.getD DEFAULT_OPTIONS.maxL,
      darkChroma := g.darkChroma.getD DEFAULT_OPTIONS.darkChroma,
      lightChroma := g.lightChroma.getD DEFAULT_OPTIONS.lightChroma,
      mainColorStop := g.mainColorStop.getD DEFAULT_OPTIONS.mainColorStop }

/-- The dark keyframe before clamping: the main color with lightness forced
to `minL` and chroma to `darkChroma` (createGradient.ts, `lchDarkest`
argument to `clampGamut`). -/
def darkKeyframeSpec (main : OklchPoint) (opts : ResolvedOptions) : OklchPoint :=
  { main with l := opts.minL, c := opts.darkChroma }

/-- The light keyframe before clamping: the main color with lightness forced
to `maxL` and chroma to `lightChroma` (createGradient.ts, `lchLightest`
argument to `clampGamut`). -/
def lightKeyframeSpec (main : OklchPoint) (opts : ResolvedOptions) : OklchPoint :=
  { main with l := opts.maxL, c := opts.lightChroma }

/-- Translation of the per-sample body of `discreteGradient`: each sampled
color is formatted to hex, the result asserted defined, and paired with its
luminance label. -/
def attachHex : List (ℕ × OklchPoint) → Except String (List (ℕ × String))
  | [] => Except.ok []
  | (lum, p) :: rest =>
    match assertIsDefined (formatHex p) with
    | Except.error e => Except.error e
    | Except.ok hex =>
      match attachHex rest with
      | Except.error e => Except.error e
      | Except.ok tail => Except.ok ((lum, hex) :: tail)

/-- The result bundle (createGradient.ts, `GradientWithOklch`): the hex
palette, the parallel perceptual points, and the clamped main color.  The two
mappings are represented by their entry lists in construction order, as
produced by `Object.fromEntries`. -/
structure GradientWithOklch where
  gradient : List (ℕ × String)
  oklchPoints : List (ℕ × OklchPoint)
  mainColorOklch : OklchPoint
deriving DecidableEq, Repr

/-- Translation of `createGradientWithOklch` (createGradient.ts): merge the
options with the defaults, parse and gamut-clamp the main color, derive the
clamped dark and light keyframes, interpolate darkest → main (at
`mainColorStop`) → lightest, sample `LUMINANCE.length` equidistant points,
convert each to hex, and assemble the 13-entry mappings with the fixed white
and black boundary entries.  A failed assertion surfaces as
`Except.error`. -/
def createGradientWithOklch (mainColor : String) (options : Option GradientOptions) :
    Except String GradientWithOklch :=
  let opts := resolveOptions options
  (assertIsDefined (culoriClampStr mainColor)).bind (fun lchMainColor =>
    (assertIsDefined (culoriClampColor (darkKeyframeSpec lchMainColor opts))).bind (fun lchDarkest =>
      (assertIsDefined (culoriClampColor (lightKeyframeSpec lchMainColor opts))).bind (fun lchLightest =>
        let sampledColors :=
          (samples LUMINANCE.length).map
            (interpolate3 lchDarkest lchMainColor opts.mainColorStop lchLightest)
        (attachHex (LUMINANCE.zip sampledColors)).bind (fun discreteGradient =>
          Except.ok
            { gradient := discreteGradient ++ [(0, WHITE), (1000, BLACK)],
              oklchPoints :=
                LUMINANCE.zip (sampledColors.map (fun p => { l := p.l, c := p.c, h := p.h })) ++
                  [(0, { l := 1, c := 0, h := none }), (1000, { l := 0, c := 0, h := none })],
              mainColorOklch :=
                { l := lchMainColor.l, c := lchMainColor.c, h := lchMainColor.h } }))))

/-- The sampled perceptual colors of the gradient, as a function of the
clamped main color and the resolved options: the clamped dark and light
keyframes interpolated darkest → main (at `mainColorStop`) → lightest and
sampled at `LUMINANCE.length` equidistant positions.  This names the value
the local `sampledColors` takes inside `createGradientWithOklch` once the
gamut-clamping assertions have passed. -/
def sampledOf (main : OklchPoint) (opts : ResolvedOptions) : List OklchPoint :=
  (samples LUMINANCE.length).map
    (interpolate3 (clampGamut (darkKeyframeSpec main opts)) main opts.mainColorStop
      (clampGamut (lightKeyframeSpec main opts)))

/-- Translation of `createGradient` (createGradient.ts): the hex palette
component of `createGradientWithOklch`. -/
def createGradient (mainColor : String) (options : Option GradientOptions) :
    Except String (List (ℕ × String)) :=
  (createGradientWithOklch mainColor options).map (fun r => r.gradient)

/-- A placeholder result used only as the default of `Option.getD` when
naming concrete evaluations of the core below. -/
def emptyResult : GradientWithOklch :=
  { gradient := [], oklchPoints := [], mainColorOklch := { l := 0, c := 0, h := none } }

/-- Concrete evaluation: the default main color with no options. -/
def resultBlue : GradientWithOklch :=
  ((createGradientWithOklch "#3b82f6" none).toOption).getD emptyResult

/-- An options record that only moves the main color stop. -/
def movedStopOptions : GradientOptions := { mainColorStop := some (3 / 10) }

/-- Concrete evaluation: a main color whose raw perceptual conversion is out
of gamut, with no options. -/
def resultGreenDefault : GradientWithOklch :=
  ((createGradientWithOklch "#00ff00" none).toOption).getD emptyResult

/-- Concrete evaluation: the same main color with a moved main color stop. -/
def resultGreenMoved : GradientWithOklch :=
  ((createGradientWithOklch "#00ff00" (some movedStopOptions)).toOption).getD emptyResult

/-- An options record with both endpoint chromas set to zero. -/
def zeroChromaOptions : GradientOptions := { darkChroma := some 0, lightChroma := some 0 }

/-- Concrete evaluation: default main color with zero endpoint chromas. -/
def resultZeroChroma : GradientWithOklch :=
  ((createGradientWithOklch "#3b82f6" (some zeroChromaOptions)).toOption).getD emptyResult

/-- An options record whose requested darkest lightness lies outside [0, 1],
so that gamut clamping must move it. -/
def highMinLOptions : GradientOptions := { minL := some 2 }

/-- Concrete evaluation: default main color with the out-of-range `minL`. -/
def resultHighMinL : GradientWithOklch :=
  ((createGradientWithOklch "#3b82f6" (some highMinLOptions)).toOption).getD emptyResult

/-- The documented default option values supplied explicitly by the caller. -/
def explicitDefaultOptions : GradientOptions :=
  { minL := some (2 / 10), maxL := some (98 / 100), darkChroma := some (1 / 1000),
    lightChroma := some (1 / 100), mainColorStop := some (1 / 2) }

/-! Helper lemmas about association-list lookups. -/

theorem lookup_append_left {β : Type} (k : ℕ) (l₁ l₂ : List (ℕ × β))
    (h : k ∈ l₁.map Prod.fst) : (l₁ ++ l₂).lookup k = l₁.lookup k := by
  induction l₁ with
  | nil => cases h
  | cons hd tl ih =>
    obtain ⟨a, b⟩ := hd
    by_cases hk : k = a
    · subst hk
      simp [List.lookup]
    · have hb : (k == a) = false := beq_eq_false_iff_ne.mpr hk
      have hmem : k ∈ tl.map Prod.fst := by
        rcases List.mem_map.mp h with ⟨e, he, hke⟩
        rcases List.mem_cons.mp he with rfl | he'
        · exact absurd hke.symm hk
        · exact List.mem_map.mpr ⟨e, he', hke⟩
      simp [List.lookup, hb, ih hmem]

theorem lookup_append_right {β : Type} (k : ℕ) (l₁ l₂ : List (ℕ × β))
    (h : k ∉ l₁.map Prod.fst) : (l₁ ++ l₂).lookup k = l₂.lookup k := by
  induction l₁ with
  | nil => rfl
  | cons hd tl ih =>
    obtain ⟨a, b⟩ := hd
    have hk : k ≠ a := by
      intro hka
      exact h (List.mem_map.mpr ⟨(a, b), List.mem_cons_self _ _, hka.symm⟩)
    have hb : (k == a) = false := beq_eq_false_iff_ne.mpr hk
    have hmem : k ∉ tl.map Prod.fst := fun hm => h (by simp [hm])
    simp [List.lookup, hb, ih hmem]

theorem exists_lookup_of_mem_keys {β : Type} (k : ℕ) (l : List (ℕ × β))
    (h : k ∈ l.map Prod.fst) : ∃ v, l.lookup k = some v := by
  induction l with
  | nil => cases h
  | cons hd tl ih =>
    obtain ⟨a, b⟩ := hd
    by_cases hk : k = a
    · subst hk
      exact ⟨b, by simp [List.lookup]⟩
    · have hb : (k == a) = false := beq_eq_false_iff_ne.mpr hk
      have hmem : k ∈ tl.map Prod.fst := by
        rcases List.mem_map.mp h with ⟨e, he, hke⟩
        rcases List.mem_cons.mp he with rfl | he'
        · exact absurd hke.symm hk
        · exact List.mem_map.mpr ⟨e, he', hke⟩
      rcases ih hmem with ⟨v, hv⟩
      exact ⟨v, by simp [List.lookup, hb, hv]⟩

/-! Helper lemmas about the modelled gamut and its convexity. -/

theorem inGamut_iff (p : OklchPoint) :
    inGamut p = true ↔ 0 ≤ p.l ∧ p.l ≤ 1 ∧ 0 ≤ p.c ∧ p.c ≤ p.l ∧ p.c ≤ 1 - p.l := by
  simp [inGamut, and_assoc]

theorem clampGamut_inGamut (p : OklchPoint) : inGamut (clampGamut p) = true := by
  rw [inGamut_iff]
  unfold clampGamut
  refine ⟨le_max_left _ _, max_le (by norm_num) (min_le_left _ _), le_max_left _ _, ?_, ?_⟩
  · exact max_le (le_max_left _ _)
      (le_trans (min_le_left _ _) (min_le_left _ _))
  · have h1 : max 0 (min 1 p.l) ≤ 1 := max_le (by norm_num) (min_le_left _ _)
    exact max_le (by linarith)
      (le_trans (min_le_left _ _) (min_le_right _ _))

theorem mk_eta (p : OklchPoint) : ({ l := p.l, c := p.c, h := p.h } : OklchPoint) = p := rfl

theorem lerpPoint_inGamut (a b : OklchPoint) (t : ℚ)
    (ha : inGamut a = true) (hb : inGamut b = true) (h0 : 0 ≤ t) (h1 : t ≤ 1) :
    inGamut (lerpPoint a b t) = true := by
  rw [inGamut_iff] at ha hb ⊢
  obtain ⟨ha1, ha2, ha3, ha4, ha5⟩ := ha
  obtain ⟨hb1, hb2, hb3, hb4, hb5⟩ := hb
  have ht : 0 ≤ 1 - t := by linarith
  simp only [lerpPoint, lerp]
  refine ⟨?_, ?_, ?_, ?_, ?_⟩
  · nlinarith [mul_nonneg ht ha1, mul_nonneg h0 hb1]
  · nlinarith [mul_nonneg ht (by linarith : (0 : ℚ) ≤ 1 - a.l),
      mul_nonneg h0 (by linarith : (0 : ℚ) ≤ 1 - b.l)]
  · nlinarith [mul_nonneg ht ha3, mul_nonneg h0 hb3]
  · nlinarith [mul_nonneg ht (by linarith : (0 : ℚ) ≤ a.l - a.c),
      mul_nonneg h0 (by linarith : (0 : ℚ) ≤ b.l - b.c)]
  · nlinarith [mul_nonneg ht (by linarith : (0 : ℚ) ≤ 1 - a.l - a.c),
      mul_nonneg h0 (by linarith : (0 : ℚ) ≤ 1 - b.l - b.c)]

theorem interpolate3_inGamut (d mn li : OklchPoint) (stop t : ℚ)
    (hd : inGamut d = true) (hm : inGamut mn = true) (hl : inGamut li = true)
    (h0 : 0 ≤ t) (h1 : t ≤ 1) : inGamut (interpolate3 d mn stop li t) = true := by
  unfold interpolate3
  by_cases h : t ≤ stop
  · rw [if_pos h]
    rcases lt_trichotomy stop 0 with hs | hs | hs
    · exact absurd (le_trans h0 h) (not_le.mpr hs)
    · subst hs
      have ht0 : t = 0 := le_antisymm h h0
      subst ht0
      rw [zero_div]
      exact lerpPoint_inGamut _ _ _ hd hm le_rfl (by norm_num)
    · exact lerpPoint_inGamut _ _ _ hd hm (div_nonneg h0 hs.le) ((div_le_one hs).mpr h)
  · rw [if_neg h]
    have hts : stop < t := not_le.mp h
    have hpos : 0 < 1 - stop := by linarith
    exact lerpPoint_inGamut _ _ _ hm hl (div_nonneg (by linarith) hpos.le)
      ((div_le_one hpos).mpr (by linarith))

theorem samples_eleven :
    samples LUMINANCE.length =
      [0, 1 / 10, 2 / 10, 3 / 10, 4 / 10, 5 / 10, 6 / 10, 7 / 10, 8 / 10, 9 / 10, 1] := by
  decide

theorem samples_mem_bounds : ∀ t ∈ samples LUMINANCE.length, 0 ≤ t ∧ t ≤ 1 := by
  rw [samples_eleven]
  decide

theorem sampledOf_inGamut (main : OklchPoint) (opts : ResolvedOptions)
    (hm : inGamut main = true) : ∀ p ∈ sampledOf main opts, inGamut p = true := by
  intro p hp
  simp only [sampledOf, List.mem_map] at hp
  obtain ⟨t, ht, rfl⟩ := hp
  obtain ⟨h0, h1⟩ := samples_mem_bounds t ht
  exact interpolate3_inGamut _ _ _ _ _ (clampGamut_inGamut _) hm (clampGamut_inGamut _) h0 h1

theorem sampledOf_length (main : OklchPoint) (opts : ResolvedOptions) :
    (sampledOf main opts).length = LUMINANCE.length := by
  simp only [sampledOf, samples, List.length_map, List.length_range]

theorem zip_sampled_keys (main : OklchPoint) (opts : ResolvedOptions) :
    (LUMINANCE.zip (sampledOf main opts)).map Prod.fst = LUMINANCE :=
  List.map_fst_zip _ _ (le_of_eq (sampledOf_length main opts).symm)

/-! Helper lemmas about `attachHex` (the hex-conversion loop with its
per-sample assertion). -/

theorem attachHex_ok (l : List (ℕ × OklchPoint)) (h : ∀ e ∈ l, inGamut e.2 = true) :
    ∃ r, attachHex l = Except.ok r ∧ r.map Prod.fst = l.map Prod.fst ∧
      ∀ k, r.lookup k = (l.lookup k).bind formatHex := by
  induction l with
  | nil => exact ⟨[], rfl, rfl, fun k => rfl⟩
  | cons hd tl ih =>
    obtain ⟨lum, p⟩ := hd
    have hg : inGamut p = true := h (lum, p) (List.mem_cons_self _ _)
    obtain ⟨r, hr, hkeys, hlook⟩ := ih (fun e he => h e (List.mem_cons_of_mem _ he))
    have hfp : formatHex p = some (hexEncode p) := by simp [formatHex, hg]
    refine ⟨(lum, hexEncode p) :: r, ?_, ?_, ?_⟩
    · simp [attachHex, hfp, assertIsDefined, hr]
    · simp [hkeys]
    · intro k
      by_cases hk : k = lum
      · subst hk
        simp [List.lookup, hfp]
      · have hb : (k == lum) = false := beq_eq_false_iff_ne.mpr hk
        simp [List.lookup, hb, hlook k]

/-! The master inversion lemma: for a parseable main color the core function
returns exactly the assembled structure, and for an unparseable one it
returns the assertion error. -/

theorem createGradientWithOklch_ok_spec (m : String) (o : Option GradientOptions)
    (raw : OklchPoint) (hp : parseColor m = some raw) :
    ∃ dg, createGradientWithOklch m o = Except.ok
        { gradient := dg ++ [(0, WHITE), (1000, BLACK)],
          oklchPoints :=
            LUMINANCE.zip (sampledOf (clampGamut raw) (resolveOptions o)) ++
              [(0, { l := 1, c := 0, h := none }), (1000, { l := 0, c := 0, h := none })],
          mainColorOklch := clampGamut raw } ∧
      dg.map Prod.fst = LUMINANCE ∧
      ∀ k, dg.lookup k =
        ((LUMINANCE.zip (sampledOf (clampGamut raw) (resolveOptions o))).lookup k).bind formatHex := by
  have hzip : ∀ e ∈ LUMINANCE.zip (sampledOf (clampGamut raw) (resolveOptions o)),
      inGamut e.2 = true := by
    intro e he
    exact sampledOf_inGamut (clampGamut raw) (resolveOptions o) (clampGamut_inGamut raw) e.2
      (List.of_mem_zip he).2
  obtain ⟨dg, hdg, hkeys, hlook⟩ := attachHex_ok _ hzip
  refine ⟨dg, ?_, by rw [hkeys, zip_sampled_keys], hlook⟩
  have hmain : culoriClampStr m = some (clampGamut raw) := by
    simp [culoriClampStr, hp]
  simp only [createGradientWithOklch, hmain, assertIsDefined, culoriClampColor, Except.bind]
  simp only [sampledOf] at hdg
  rw [hdg]
  simp only [Except.bind, mk_eta, List.map_id', sampledOf]

theorem createGradientWithOklch_error_spec (m : String) (o : Option GradientOptions)
    (hp : parseColor m = none) :
    createGradientWithOklch m o = Except.error assertFailureMessage := by
  have hmain : culoriClampStr m = none := by simp [culoriClampStr, hp]
  simp [createGradientWithOklch, hmain, assertIsDefined, Except.bind]

theorem createGradientWithOklch_ok_inversion (m : String) (o : Option GradientOptions)
    (r : GradientWithOklch) (hr : createGradientWithOklch m o = Except.ok r) :
    ∃ raw dg, parseColor m = some raw ∧
      r = { gradient := dg ++ [(0, WHITE), (1000, BLACK)],
            oklchPoints :=
              LUMINANCE.zip (sampledOf (clampGamut raw) (resolveOptions o)) ++
                [(0, { l := 1, c := 0, h := none }), (1000, { l := 0, c := 0, h := none })],
            mainColorOklch := clampGamut raw } ∧
      dg.map Prod.fst = LUMINANCE ∧
      ∀ k, dg.lookup k =
        ((LUMINANCE.zip (sampledOf (clampGamut raw) (resolveOptions o))).lookup k).bind formatHex := by
  cases hp : parseColor m with
  | none =>
    rw [createGradientWithOklch_error_spec m o hp] at hr
    cases hr
  | some raw =>
    obtain ⟨dg, hok, hkeys, hlook⟩ := createGradientWithOklch_ok_spec m o raw hp
    rw [hok] at hr
    exact ⟨raw, dg, rfl, (Except.ok.inj hr).symm, hkeys, hlook⟩

/-! Helper lemmas about the values of the interpolation path at its two
endpoint positions, and about the clamped keyframes. -/

theorem interpolate3_zero_lc (d mn li : OklchPoint) (stop : ℚ) (hs : 0 < stop) :
    (interpolate3 d mn stop li 0).l = d.l ∧ (interpolate3 d mn stop li 0).c = d.c := by
  unfold interpolate3
  rw [if_pos hs.le, zero_div]
  constructor <;> simp [lerpPoint, lerp]

theorem interpolate3_one_lc (d mn li : OklchPoint) (stop : ℚ) (hs : stop < 1) :
    (interpolate3 d mn stop li 1).l = li.l ∧ (interpolate3 d mn stop li 1).c = li.c := by
  unfold interpolate3
  rw [if_neg (not_le.mpr hs), div_self (by linarith : (1 : ℚ) - stop ≠ 0)]
  constructor <;> simp [lerpPoint, lerp]

theorem clampGamut_l_of_bounds (p : OklchPoint) (h0 : 0 ≤ p.l) (h1 : p.l ≤ 1) :
    (clampGamut p).l = p.l := by
  simp [clampGamut, min_eq_right h1, max_eq_right h0]

theorem clampGamut_c_of_zero (p : OklchPoint) (hc : p.c = 0) : (clampGamut p).c = 0 := by
  have h1 : (0 : ℚ) ≤ max 0 (min 1 p.l) := le_max_left _ _
  have h2 : max 0 (min 1 p.l) ≤ 1 := max_le (by norm_num) (min_le_left _ _)
  have h3 : (0 : ℚ) ≤ min (max 0 (min 1 p.l)) (1 - max 0 (min 1 p.l)) :=
    le_min h1 (by linarith)
  simp [clampGamut, hc, min_eq_right h3]

theorem zip_sampled_lookup_950 (main : OklchPoint) (opts : ResolvedOptions) :
    (LUMINANCE.zip (sampledOf main opts)).lookup 950 =
      some (interpolate3 (clampGamut (darkKeyframeSpec main opts)) main opts.mainColorStop
        (clampGamut (lightKeyframeSpec main opts)) 0) := rfl

theorem zip_sampled_lookup_50 (main : OklchPoint) (opts : ResolvedOptions) :
    (LUMINANCE.zip (sampledOf main opts)).lookup 50 =
      some (interpolate3 (clampGamut (darkKeyframeSpec main opts)) main opts.mainColorStop
        (clampGamut (lightKeyframeSpec main opts)) 1) := rfl

/-! Evaluation lemmas for the named concrete results. -/

theorem resultBlue_ok : createGradientWithOklch "#3b82f6" none = Except.ok resultBlue := rfl

theorem resultGreenDefault_ok :
    createGradientWithOklch "#00ff00" none = Except.ok resultGreenDefault := rfl

theorem resultGreenMoved_ok :
    createGradientWithOklch "#00ff00" (some movedStopOptions) = Except.ok resultGreenMoved := rfl

theorem resultZeroChroma_ok :
    createGradientWithOklch "#3b82f6" (some zeroChromaOptions) = Except.ok resultZeroChroma := rfl

theorem resultHighMinL_ok :
    createGradientWithOklch "#3b82f6" (some highMinLOptions) = Except.ok resultHighMinL := rfl

/-- Claim C1: for every mainColor string that parses as a valid color and
every options record, `createGradientWithOklch` returns a result without any
internal assertion firing; for every mainColor that does not parse, the call
raises the assertion error immediately, with no fallback color
substituted. -/
theorem claim1_total_for_valid_error_for_invalid (m : String) (o : Option GradientOptions) :
    ((parseColor m).isSome = true → ∃ r, createGradientWithOklch m o = Except.ok r) ∧
    (parseColor m = none → createGradientWithOklch m o = Except.error assertFailureMessage) := by
  constructor
  · intro h
    cases hp : parseColor m with
    | none => simp [hp] at h
    | some raw =>
      obtain ⟨dg, hok, -, -⟩ := createGradientWithOklch_ok_spec m o raw hp
      exact ⟨_, hok⟩
  · intro h
    exact createGradientWithOklch_error_spec m o h

theorem claim1_witness :
    (∃ r, createGradientWithOklch "#3b82f6" none = Except.ok r) ∧
    createGradientWithOklch "not-a-color" none = Except.error assertFailureMessage := by
  constructor
  · exact (claim1_total_for_valid_error_for_invalid "#3b82f6" none).1 (by decide)
  · exact (claim1_total_for_valid_error_for_invalid "not-a-color" none).2 (by decide)

/-- Claim C2: for every valid mainColor and every options record, both output
mappings contain exactly the 13 keys {0, 50, 100, 200, 300, 400, 500, 600,
700, 800, 900, 950, 1000}, each present exactly once, with no extra keys. -/
theorem claim2_exactly_thirteen_labels (m : String) (o : Option GradientOptions)
    (r : GradientWithOklch) (hr : createGradientWithOklch m o = Except.ok r) :
    r.gradient.map Prod.fst = [950, 900, 800, 700, 600, 500, 400, 300, 200, 100, 50, 0, 1000] ∧
    r.oklchPoints.map Prod.fst = [950, 900, 800, 700, 600, 500, 400, 300, 200, 100, 50, 0, 1000] ∧
    List.Perm [950, 900, 800, 700, 600, 500, 400, 300, 200, 100, 50, 0, 1000]
      [0, 50, 100, 200, 300, 400, 500, 600, 700, 800, 900, 950, 1000] := by
  obtain ⟨raw, dg, hp, rfl, hkeys, hlook⟩ := createGradientWithOklch_ok_inversion m o r hr
  refine ⟨?_, ?_, by decide⟩
  · rw [List.map_append, hkeys]
    decide
  · rw [List.map_append, zip_sampled_keys]
    decide

theorem claim2_witness :
    resultBlue.gradient.map Prod.fst =
      [950, 900, 800, 700, 600, 500, 400, 300, 200, 100, 50, 0, 1000] ∧
    resultBlue.oklchPoints.map Prod.fst =
      [950, 900, 800, 700, 600, 500, 400, 300, 200, 100, 50, 0, 1000] ∧
    List.Perm [950, 900, 800, 700, 600, 500, 400, 300, 200, 100, 50, 0, 1000]
      [0, 50, 100, 200, 300, 400, 500, 600, 700, 800, 900, 950, 1000] :=
  claim2_exactly_thirteen_labels "#3b82f6" none resultBlue resultBlue_ok

/-- Claim C3: for every valid mainColor and every options record, the
gradient maps label 0 to pure white and label 1000 to pure black, and the
perceptual mapping sends label 0 to lightness 1, chroma 0, undefined hue and
label 1000 to lightness 0, chroma 0, undefined hue. -/
theorem claim3_fixed_boundary_colors (m : String) (o : Option GradientOptions)
    (r : GradientWithOklch) (hr : createGradientWithOklch m o = Except.ok r) :
    r.gradient.lookup 0 = some WHITE ∧ r.gradient.lookup 1000 = some BLACK ∧
    WHITE = "#FFFFFF" ∧ BLACK = "#000000" ∧
    r.oklchPoints.lookup 0 = some { l := 1, c := 0, h := none } ∧
    r.oklchPoints.lookup 1000 = some { l := 0, c := 0, h := none } := by
  obtain ⟨raw, dg, hp, rfl, hkeys, hlook⟩ := createGradientWithOklch_ok_inversion m o r hr
  have h0 : (0 : ℕ) ∉ dg.map Prod.fst := by rw [hkeys]; decide
  have h1000 : (1000 : ℕ) ∉ dg.map Prod.fst := by rw [hkeys]; decide
  have hz0 : (0 : ℕ) ∉ (LUMINANCE.zip (sampledOf (clampGamut raw) (resolveOptions o))).map
      Prod.fst := by rw [zip_sampled_keys]; decide
  have hz1000 : (1000 : ℕ) ∉ (LUMINANCE.zip (sampledOf (clampGamut raw) (resolveOptions o))).map
      Prod.fst := by rw [zip_sampled_keys]; decide
  refine ⟨?_, ?_, rfl, rfl, ?_, ?_⟩
  · rw [lookup_append_right 0 _ _ h0]; rfl
  · rw [lookup_append_right 1000 _ _ h1000]; rfl
  · rw [lookup_append_right 0 _ _ hz0]; rfl
  · rw [lookup_append_right 1000 _ _ hz1000]; rfl

theorem claim3_witness :
    resultBlue.gradient.lookup 0 = some WHITE ∧ resultBlue.gradient.lookup 1000 = some BLACK ∧
    WHITE = "#FFFFFF" ∧ BLACK = "#000000" ∧
    resultBlue.oklchPoints.lookup 0 = some { l := 1, c := 0, h := none } ∧
    resultBlue.oklchPoints.lookup 1000 = some { l := 0, c := 0, h := none } :=
  claim3_fixed_boundary_colors "#3b82f6" none resultBlue resultBlue_ok

/-- Claim C4: for every valid mainColor and every options record, the core
samples exactly 11 points of the interpolation path at positions i/10 for
i = 0..10 (equidistant, including both endpoints), and assigns sample index i
to the i-th element of the fixed darkest-first sequence [950, 900, 800, 700,
600, 500, 400, 300, 200, 100, 50]. -/
theorem claim4_eleven_equidistant_samples (m : String) (o : Option GradientOptions)
    (r : GradientWithOklch) (hr : createGradientWithOklch m o = Except.ok r) :
    samples LUMINANCE.length =
      [0, 1 / 10, 2 / 10, 3 / 10, 4 / 10, 5 / 10, 6 / 10, 7 / 10, 8 / 10, 9 / 10, 1] ∧
    LUMINANCE = [950, 900, 800, 700, 600, 500, 400, 300, 200, 100, 50] ∧
    ∃ raw, parseColor m = some raw ∧
      r.oklchPoints.take LUMINANCE.length =
        LUMINANCE.zip (sampledOf (clampGamut raw) (resolveOptions o)) := by
  obtain ⟨raw, dg, hp, rfl, hkeys, hlook⟩ := createGradientWithOklch_ok_inversion m o r hr
  refine ⟨samples_eleven, rfl, raw, hp, ?_⟩
  have hlen : (LUMINANCE.zip (sampledOf (clampGamut raw) (resolveOptions o))).length =
      LUMINANCE.length := by
    rw [List.length_zip, sampledOf_length, min_self]
  exact List.take_left' hlen

theorem claim4_witness :
    samples LUMINANCE.length =
      [0, 1 / 10, 2 / 10, 3 / 10, 4 / 10, 5 / 10, 6 / 10, 7 / 10, 8 / 10, 9 / 10, 1] ∧
    LUMINANCE = [950, 900, 800, 700, 600, 500, 400, 300, 200, 100, 50] ∧
    ∃ raw, parseColor "#3b82f6" = some raw ∧
      resultBlue.oklchPoints.take LUMINANCE.length =
        LUMINANCE.zip (sampledOf (clampGamut raw) (resolveOptions none)) :=
  claim4_eleven_equidistant_samples "#3b82f6" none resultBlue resultBlue_ok

/-- Claim C5: for every valid mainColor and every options record, the
returned mainColorOklch equals the gamut-clamped perceptual conversion of the
input mainColor — never the raw, possibly out-of-gamut conversion — and it
does not depend on any field of the options record. -/
theorem claim5_main_color_clamped_options_independent (m : String)
    (o oo : Option GradientOptions) (raw : OklchPoint) (r rr : GradientWithOklch)
    (hp : parseColor m = some raw)
    (hr : createGradientWithOklch m o = Except.ok r)
    (hrr : createGradientWithOklch m oo = Except.ok rr) :
    r.mainColorOklch = clampGamut raw ∧ r.mainColorOklch = rr.mainColorOklch := by
  obtain ⟨raw1, dg1, hp1, rfl, -, -⟩ := createGradientWithOklch_ok_inversion m o r hr
  obtain ⟨raw2, dg2, hp2, rfl, -, -⟩ := createGradientWithOklch_ok_inversion m oo rr hrr
  have h1 : raw1 = raw := Option.some.inj (hp1.symm.trans hp)
  have h2 : raw2 = raw := Option.some.inj (hp2.symm.trans hp)
  subst h1
  subst h2
  exact ⟨rfl, rfl⟩

theorem claim5_witness :
    resultGreenDefault.mainColorOklch =
      clampGamut { l := 866 / 1000, c := 295 / 1000, h := some 142 } ∧
    resultGreenDefault.mainColorOklch = resultGreenMoved.mainColorOklch :=
  claim5_main_color_clamped_options_independent "#00ff00" none (some movedStopOptions)
    { l := 866 / 1000, c := 295 / 1000, h := some 142 } resultGreenDefault resultGreenMoved
    (by decide) resultGreenDefault_ok resultGreenMoved_ok

/-- Counterexample to claim C6 as stated: with `minL = 2` (an options record
the claim quantifies over) and the default `mainColorStop = 1/2 ≠ 0`, gamut
clamping forces the dark endpoint's lightness into [0, 1], so the perceptual
point at label 950 has lightness 1, not `minL`. -/
theorem claim6_counterexample :
    createGradientWithOklch "#3b82f6" (some highMinLOptions) = Except.ok resultHighMinL ∧
    (resolveOptions (some highMinLOptions)).mainColorStop ≠ 0 ∧
    (resolveOptions (some highMinLOptions)).minL = 2 ∧
    (resultHighMinL.oklchPoints.lookup 950).map OklchPoint.l = some 1 ∧
    (resultHighMinL.oklchPoints.lookup 950).map OklchPoint.l ≠
      some (resolveOptions (some highMinLOptions)).minL := by
  exact ⟨rfl, by decide, by decide, by decide, by decide⟩

/-- Claim C6 (amended): for every valid mainColor and every options record
whose `minL` and `maxL` lie in [0, 1] (so that clamping the derived endpoints
does not move their lightness), the perceptual point at label 950 has
lightness equal to `minL` whenever `mainColorStop > 0` (not merely ≠ 0), and
symmetrically the point at label 50 has lightness equal to `maxL` whenever
`mainColorStop < 1`. -/
theorem claim6_endpoint_lightness_amended (m : String) (o : Option GradientOptions)
    (r : GradientWithOklch)
    (hr : createGradientWithOklch m o = Except.ok r)
    (hmin0 : 0 ≤ (resolveOptions o).minL) (hmin1 : (resolveOptions o).minL ≤ 1)
    (hmax0 : 0 ≤ (resolveOptions o).maxL) (hmax1 : (resolveOptions o).maxL ≤ 1) :
    (0 < (resolveOptions o).mainColorStop →
      (r.oklchPoints.lookup 950).map OklchPoint.l = some (resolveOptions o).minL) ∧
    ((resolveOptions o).mainColorStop < 1 →
      (r.oklchPoints.lookup 50).map OklchPoint.l = some (resolveOptions o).maxL) := by
  obtain ⟨raw1, dg, hp1, rfl, hkeys, hlook⟩ := createGradientWithOklch_ok_inversion m o r hr
  have hmem950 : (950 : ℕ) ∈
      (LUMINANCE.zip (sampledOf (clampGamut raw1) (resolveOptions o))).map Prod.fst := by
    rw [zip_sampled_keys]
    decide
  have hmem50 : (50 : ℕ) ∈
      (LUMINANCE.zip (sampledOf (clampGamut raw1) (resolveOptions o))).map Prod.fst := by
    rw [zip_sampled_keys]
    decide
  constructor
  · intro hstop
    rw [lookup_append_left 950 _ _ hmem950, zip_sampled_lookup_950, Option.map_some',
      (interpolate3_zero_lc _ _ _ _ hstop).1, clampGamut_l_of_bounds]
    · rfl
    · exact hmin0
    · exact hmin1
  · intro hstop
    rw [lookup_append_left 50 _ _ hmem50, zip_sampled_lookup_50, Option.map_some',
      (interpolate3_one_lc _ _ _ _ hstop).1, clampGamut_l_of_bounds]
    · rfl
    · exact hmax0
    · exact hmax1

theorem claim6_witness :
    (resultBlue.oklchPoints.lookup 950).map OklchPoint.l = some (resolveOptions none).minL ∧
    (resultBlue.oklchPoints.lookup 50).map OklchPoint.l = some (resolveOptions none).maxL := by
  have h := claim6_endpoint_lightness_amended "#3b82f6" none resultBlue resultBlue_ok
    (by decide) (by decide) (by decide) (by decide)
  exact ⟨h.1 (by decide), h.2 (by decide)⟩

/-- Claim C7: for every valid mainColor, calling the core with darkChroma = 0
and lightChroma = 0 produces dark and light endpoint keyframes that both have
chroma 0, and the hue of a zero-chroma color is ignored when it is displayed;
accordingly the sampled points at labels 950 and 50 (which are the keyframes
at path positions 0 and 1 when `mainColorStop` lies strictly between them)
have chroma 0. -/
theorem claim7_zero_chroma_endpoints (m : String) (g : GradientOptions) (raw : OklchPoint)
    (r : GradientWithOklch) (hp : parseColor m = some raw)
    (hd : g.darkChroma = some 0) (hl : g.lightChroma = some 0)
    (hr : createGradientWithOklch m (some g) = Except.ok r) :
    (clampGamut (darkKeyframeSpec (clampGamut raw) (resolveOptions (some g)))).c = 0 ∧
    (clampGamut (lightKeyframeSpec (clampGamut raw) (resolveOptions (some g)))).c = 0 ∧
    (∀ (lv : ℚ) (h1 h2 : Option ℚ),
      formatHex { l := lv, c := 0, h := h1 } = formatHex { l := lv, c := 0, h := h2 }) ∧
    (0 < (resolveOptions (some g)).mainColorStop →
      (r.oklchPoints.lookup 950).map OklchPoint.c = some 0) ∧
    ((resolveOptions (some g)).mainColorStop < 1 →
      (r.oklchPoints.lookup 50).map OklchPoint.c = some 0) := by
  obtain ⟨raw1, dg, hp1, rfl, hkeys, hlook⟩ :=
    createGradientWithOklch_ok_inversion m (some g) r hr
  have hraw : raw = raw1 := Option.some.inj (hp.symm.trans hp1)
  subst hraw
  have hdc : (resolveOptions (some g)).darkChroma = 0 := by simp [resolveOptions, hd]
  have hlc : (resolveOptions (some g)).lightChroma = 0 := by simp [resolveOptions, hl]
  have hdark : (clampGamut (darkKeyframeSpec (clampGamut raw) (resolveOptions (some g)))).c = 0 :=
    clampGamut_c_of_zero _ (by simp [darkKeyframeSpec, hdc])
  have hlight :
      (clampGamut (lightKeyframeSpec (clampGamut raw) (resolveOptions (some g)))).c = 0 :=
    clampGamut_c_of_zero _ (by simp [lightKeyframeSpec, hlc])
  have hmem950 : (950 : ℕ) ∈
      (LUMINANCE.zip (sampledOf (clampGamut raw) (resolveOptions (some g)))).map Prod.fst := by
    rw [zip_sampled_keys]
    decide
  have hmem50 : (50 : ℕ) ∈
      (LUMINANCE.zip (sampledOf (clampGamut raw) (resolveOptions (some g)))).map Prod.fst := by
    rw [zip_sampled_keys]
    decide
  refine ⟨hdark, hlight, ?_, ?_, ?_⟩
  · intro lv h1 h2
    simp [formatHex, inGamut, hexEncode]
  · intro hstop
    rw [lookup_append_left 950 _ _ hmem950, zip_sampled_lookup_950, Option.map_some',
      (interpolate3_zero_lc _ _ _ _ hstop).2, hdark]
  · intro hstop
    rw [lookup_append_left 50 _ _ hmem50, zip_sampled_lookup_50, Option.map_some',
      (interpolate3_one_lc _ _ _ _ hstop).2, hlight]

theorem claim7_witness :
    (clampGamut (darkKeyframeSpec (clampGamut { l := 62 / 100, c := 19 / 100, h := some 259 })
      (resolveOptions (some zeroChromaOptions)))).c = 0 ∧
    (clampGamut (lightKeyframeSpec (clampGamut { l := 62 / 100, c := 19 / 100, h := some 259 })
      (resolveOptions (some zeroChromaOptions)))).c = 0 ∧
    (resultZeroChroma.oklchPoints.lookup 950).map OklchPoint.c = some 0 ∧
    (resultZeroChroma.oklchPoints.lookup 50).map OklchPoint.c = some 0 := by
  have h := claim7_zero_chroma_endpoints "#3b82f6" zeroChromaOptions
    { l := 62 / 100, c := 19 / 100, h := some 259 } resultZeroChroma (by decide) (by decide)
    (by decide) resultZeroChroma_ok
  exact ⟨h.1, h.2.1, h.2.2.2.1 (by decide), h.2.2.2.2 (by decide)⟩

/-- Claim C8: calling the core with no options (or an empty record) equals
calling it with all documented defaults (minL 0.2, maxL 0.98, darkChroma
0.001, lightChroma 0.01, mainColorStop 0.5) supplied explicitly, and each
caller-supplied field fully overrides the corresponding default. -/
theorem claim8_defaults_round_trip (m : String) :
    createGradientWithOklch m none = createGradientWithOklch m (some explicitDefaultOptions) ∧
    createGradientWithOklch m (some { }) = createGradientWithOklch m none ∧
    ∀ g : GradientOptions,
      resolveOptions (some g) =
        { minL := g.minL.getD (2 / 10), maxL := g.maxL.getD (98 / 100),
          darkChroma := g.darkChroma.getD (1 / 1000),
          lightChroma := g.lightChroma.getD (1 / 100),
          mainColorStop := g.mainColorStop.getD (1 / 2) } := by
  refine ⟨?_, ?_, fun g => rfl⟩
  · have h : resolveOptions (some explicitDefaultOptions) = resolveOptions none := by decide
    simp only [createGradientWithOklch]
    rw [h]
  · have h : resolveOptions (some { }) = resolveOptions none := by decide
    simp only [createGradientWithOklch]
    rw [h]

/-- Claim C9: for every valid mainColor and every options record, and for
every non-boundary label, the hex string stored in the gradient at that label
is exactly the hex conversion of the same sampled perceptual color stored in
oklchPoints at that label. -/
theorem claim9_gradient_matches_oklch_points (m : String) (o : Option GradientOptions)
    (r : GradientWithOklch) (hr : createGradientWithOklch m o = Except.ok r) :
    ∀ lum ∈ LUMINANCE, ∃ p, r.oklchPoints.lookup lum = some p ∧
      r.gradient.lookup lum = formatHex p := by
  obtain ⟨raw, dg, hp, rfl, hkeys, hlook⟩ := createGradientWithOklch_ok_inversion m o r hr
  intro lum hlum
  have hz : lum ∈
      (LUMINANCE.zip (sampledOf (clampGamut raw) (resolveOptions o))).map Prod.fst := by
    rw [zip_sampled_keys]
    exact hlum
  obtain ⟨p, hpk⟩ := exists_lookup_of_mem_keys lum _ hz
  have hdgk : lum ∈ dg.map Prod.fst := by rw [hkeys]; exact hlum
  refine ⟨p, ?_, ?_⟩
  · rw [lookup_append_left lum _ _ hz, hpk]
  · rw [lookup_append_left lum _ _ hdgk, hlook lum, hpk]
    rfl

theorem claim9_witness :
    ∃ p, resultBlue.oklchPoints.lookup 500 = some p ∧
      resultBlue.gradient.lookup 500 = formatHex p :=
  claim9_gradient_matches_oklch_points "#3b82f6" none resultBlue resultBlue_ok 500 (by decide)

/-- Claim C10: for every valid mainColor and every options record,
`createGradient` returns exactly the gradient component of
`createGradientWithOklch`. -/
theorem claim10_createGradient_is_gradient_component (m : String) (o : Option GradientOptions)
    (r : GradientWithOklch) (hr : createGradientWithOklch m o = Except.ok r) :
    createGradient m o = Except.ok r.gradient := by
  simp [createGradient, hr, Except.map]

theorem claim10_witness : createGradient "#3b82f6" none = Except.ok resultBlue.gradient :=
  claim10_createGradient_is_gradient_component "#3b82f6" none resultBlue resultBlue_ok

end GradientViz
